import Mathlib

/-!
Verification development for the Kg_Chat_Flet chat client core
(`src/core/messages.py`, `src/core/userlist.py`, `src/core/xmpp.py`).

The Python source is shallowly embedded: stateful code becomes explicit
state passing, Python `Optional[str]` values become `Option String`
(with Python truthiness `not x` modelled by `pyTruthy`), dictionaries
become association lists in insertion order, wall-clock timestamps are
modelled by an explicit `now : Nat` parameter, and library calls that
sit outside the repository (`xml.etree.ElementTree.fromstring`,
`datetime` parsing, the HTTP transport) are abstracted as parameters or
small data types.  Everything written by the repository itself is
translated line by line from the source.
-/

namespace KgChat

/-! ### Python string primitives

Models of the Python `str` operations used by the source:
`s.split(sep)`, indexing the result, `c in s`, `s.strip()`,
`s.lower()`, substring `in`.  Strings are handled through their
character lists where proofs need structure. -/

/-- Model of Python truthiness `bool(x)` for an `Optional[str]` value:
`None` and the empty string are falsy. -/
def pyTruthy : Option String → Bool
  | none => false
  | some s => !(s == "")

/-- Model of Python `x or d` for an `Optional[str]` value `x` and a
string default `d`. -/
def pyOr (o : Option String) (d : String) : String :=
  match o with
  | none => d
  | some s => if s == "" then d else s

/-- Python whitespace stripped by `str.strip()` (ASCII subset). -/
def pyIsSpace (c : Char) : Bool :=
  c == ' ' || c == '\t' || c == '\n' || c == '\r' || c == '\x0b' || c == '\x0c'

/-- `str.strip()` on a character list: drop whitespace from both ends. -/
def pyStripL (l : List Char) : List Char :=
  ((l.dropWhile pyIsSpace).reverse.dropWhile pyIsSpace).reverse

/-- Model of Python `s.strip()`. -/
def pyStrip (s : String) : String := ⟨pyStripL s.data⟩

/-- Model of Python `str.lower()` on one character (ASCII letters). -/
def pyToLower (c : Char) : Char :=
  if 'A' ≤ c && c ≤ 'Z' then Char.ofNat (c.toNat + 32) else c

/-- Model of Python `s.lower()` (ASCII letters; other characters are
left unchanged). -/
def pyLower (s : String) : String := ⟨s.data.map pyToLower⟩

/-- Executable substring test on character lists, modelling Python
`needle in hay`. -/
def infixOfB (needle : List Char) : List Char → Bool
  | [] => needle.isEmpty
  | c :: rest => needle.isPrefixOf (c :: rest) || infixOfB needle rest

/-- Model of Python `needle in hay` for strings. -/
def pyIn (needle hay : String) : Bool := infixOfB needle.data hay.data

/-- Model of Python `c in s` for a one-character needle. -/
def pyContains (s : String) (c : Char) : Bool := s.data.contains c

/-- Model of Python `s.split(sep)` on a character list, for a
one-character separator (the only shape the source uses): the list of
pieces between occurrences of `sep`, empty pieces included.  Always
nonempty, matching `str.split` which never returns an empty list. -/
def pySplitC (sep : Char) : List Char → List (List Char)
  | [] => [[]]
  | c :: rest =>
    if c == sep then [] :: pySplitC sep rest
    else
      match pySplitC sep rest with
      | [] => [[c]]
      | h :: t => (c :: h) :: t

/-- Model of Python `s.split(sep)` for strings. -/
def pySplit (s : String) (sep : Char) : List String :=
  (pySplitC sep s.data).map (fun l => ⟨l⟩)

/-- Model of Python `s.split(sep)[0]`. -/
def splitHead (s : String) (sep : Char) : String := (pySplit s sep).headD ""

/-- Model of Python `s.split(sep)[-1]`. -/
def splitLast (s : String) (sep : Char) : String := (pySplit s sep).getLastD ""

/-- Model of Python `s.split(sep)[1]` (second piece; the callers guard
with `sep in s`, so the piece exists). -/
def splitSecond (s : String) (sep : Char) : String := (pySplit s sep).getD 1 ""

/-- Model of Python `s.split(sep, 1)[1]`: everything after the first
occurrence of the one-character separator (the caller guards with
`sep in s`). -/
def afterFirst (s : String) (sep : Char) : String :=
  ⟨List.intercalate [sep] ((pySplitC sep s.data).drop 1)⟩

/-! ### XML element trees

Model of the `xml.etree.ElementTree` element values the parser walks.
A tag carries the `{namespace}` prefix exactly as in the Python
source; `text` is `none` when the element has no text node, matching
`elem.text is None`. -/

structure XmlElem where
  tag : String
  attrs : List (String × String)
  text : Option String
  children : List XmlElem
deriving Repr

/-- Model of `elem.get(name, dflt)`: attribute lookup with default. -/
def XmlElem.getAttr (e : XmlElem) (name dflt : String) : String :=
  match e.attrs.find? (fun p => p.1 == name) with
  | some p => p.2
  | none => dflt

/-- All strict descendants of the elements of a list, in document
order; `descendantsAll e.children` models the node set scanned by
`e.findall('.//tag')` / `e.find('.//tag')`. -/
def descendantsAll : List XmlElem → List XmlElem
  | [] => []
  | c :: rest => c :: (descendantsAll c.children ++ descendantsAll rest)
termination_by l => sizeOf l
decreasing_by
  all_goals cases c
  all_goals simp
  all_goals omega

/-- Model of `e.findall('.//' + tag)`. -/
def findallDesc (e : XmlElem) (tag : String) : List XmlElem :=
  (descendantsAll e.children).filter (fun c => c.tag == tag)

/-- Model of `e.find('.//' + tag)`: first matching strict descendant. -/
def findDesc (e : XmlElem) (tag : String) : Option XmlElem :=
  (findallDesc e tag).head?

/-- Model of `e.find(tag)`: first matching direct child. -/
def findChild (e : XmlElem) (tag : String) : Option XmlElem :=
  e.children.find? (fun c => c.tag == tag)

/-- Namespace prefix `'{jabber:client}'` from `messages.py`. -/
def nsClient : String := "\x7bjabber:client\x7d"

/-- Namespace prefix `ns = '{klavogonki:userdata}'` from `messages.py`. -/
def nsUserdata : String := "\x7bklavogonki:userdata\x7d"

/-- Namespace prefix `'{http://jabber.org/protocol/muc#user}'`. -/
def nsMucUser : String := "\x7bhttp://jabber.org/protocol/muc#user\x7d"

/-- Namespace prefix `'{urn:xmpp:delay}'`. -/
def nsDelay : String := "\x7burn:xmpp:delay\x7d"

/-! ### Parsed events (`messages.py` dataclasses) -/

/-- `Message` dataclass of `messages.py`.  The receive timestamp is
modelled as a `Nat` clock value. -/
structure Message where
  from_jid : String
  body : String
  msg_type : String
  login : Option String := none
  avatar : Option String := none
  background : Option String := none
  timestamp : Option Nat := none
deriving Repr, DecidableEq

/-- `Presence` dataclass of `messages.py`. -/
structure Presence where
  from_jid : String
  presence_type : String
  login : Option String := none
  user_id : Option String := none
  avatar : Option String := none
  background : Option String := none
  game_id : Option String := none
  affiliation : String := "none"
  role : String := "participant"
deriving Repr, DecidableEq

/-! ### `MessageParser` (`messages.py`) -/

/-- Body of the loop of `MessageParser._parse_messages`
(`messages.py` lines 63-122): one `{jabber:client}message` element to
an optional `Message` (`none` models `continue`).  `now` models
`datetime.now()` and `parseStamp` abstracts
`datetime.fromisoformat(stamp.replace('Z', '+00:00'))`, returning
`none` when that call would raise. -/
def parseMessageElem (now : Nat) (parseStamp : String → Option Nat)
    (msg : XmlElem) : Option Message :=
  let from_jid := msg.getAttr "from" ""
  let msg_type := msg.getAttr "type" "chat"
  match findChild msg (nsClient ++ "body") with
  | none => none
  | some body_elem =>
    match body_elem.text with
    | none => none
    | some body =>
      if body == "" then none
      else
        let userdata := findDesc msg (nsUserdata ++ "user")
        let login : Option String :=
          match userdata with
          | none => none
          | some ud =>
            match findChild ud (nsUserdata ++ "login") with
            | none => none
            | some le => if pyTruthy le.text then le.text else none
        let avatar : Option String :=
          match userdata with
          | none => none
          | some ud =>
            match findChild ud (nsUserdata ++ "avatar") with
            | none => none
            | some ae => if pyTruthy ae.text then ae.text else none
        let background : Option String :=
          match userdata with
          | none => none
          | some ud =>
            match findChild ud (nsUserdata ++ "background") with
            | none => none
            | some be => if pyTruthy be.text then be.text else none
        let login : Option String :=
          if !(pyTruthy login) && !(from_jid == "") then
            if pyContains from_jid '/' then
              let resource := splitLast from_jid '/'
              if pyContains resource '#' then some (afterFirst resource '#')
              else some resource
            else login
          else login
        let timestamp : Option Nat :=
          match findDesc msg (nsDelay ++ "delay") with
          | none => none
          | some de =>
            match (de.attrs.find? (fun p => p.1 == "stamp")).map Prod.snd with
            | none => none
            | some stamp => parseStamp stamp
        let timestamp := match timestamp with
          | none => some now
          | some t => some t
        some { from_jid := from_jid, body := body, msg_type := msg_type,
               login := login, avatar := avatar, background := background,
               timestamp := timestamp }

/-- `MessageParser._parse_messages` (`messages.py` lines 57-124). -/
def parseMessages (now : Nat) (parseStamp : String → Option Nat)
    (root : XmlElem) : List Message :=
  (findallDesc root (nsClient ++ "message")).filterMap
    (parseMessageElem now parseStamp)

/-- Body of the loop of `MessageParser._parse_presence`
(`messages.py` lines 132-190): one `{jabber:client}presence` element to
a `Presence`. -/
def parsePresenceElem (pres : XmlElem) : Presence :=
  let from_jid := pres.getAttr "from" ""
  let ptype := pres.getAttr "type" "available"
  let userdata := findDesc pres (nsUserdata ++ "user")
  let login : Option String :=
    match userdata with
    | none => none
    | some ud =>
      match findChild ud (nsUserdata ++ "login") with
      | none => none
      | some le => le.text
  let avatar : Option String :=
    match userdata with
    | none => none
    | some ud =>
      match findChild ud (nsUserdata ++ "avatar") with
      | none => none
      | some ae => ae.text
  let background : Option String :=
    match userdata with
    | none => none
    | some ud =>
      match findChild ud (nsUserdata ++ "background") with
      | none => none
      | some be => be.text
  let game_id : Option String :=
    match findDesc pres (nsUserdata ++ "game_id") with
    | none => none
    | some ge => ge.text
  let affiliation :=
    match findDesc pres (nsMucUser ++ "item") with
    | none => "none"
    | some item => item.getAttr "affiliation" "none"
  let role :=
    match findDesc pres (nsMucUser ++ "item") with
    | none => "participant"
    | some item => item.getAttr "role" "participant"
  let user_id : Option String :=
    if pyContains from_jid '#' then
      some (splitHead (splitLast from_jid '/') '#')
    else none
  let login : Option String :=
    if !(pyTruthy login) && pyContains from_jid '#' then
      some (if pyContains (splitSecond from_jid '#') '/' then
              splitHead (splitSecond from_jid '#') '/'
            else splitSecond from_jid '#')
    else login
  { from_jid := from_jid, presence_type := ptype, login := login,
    user_id := user_id, avatar := avatar, background := background,
    game_id := game_id, affiliation := affiliation, role := role }

/-- `MessageParser._parse_presence` (`messages.py` lines 126-192). -/
def parsePresence (root : XmlElem) : List Presence :=
  (findallDesc root (nsClient ++ "presence")).map parsePresenceElem

/-- `MessageParser.parse` (`messages.py` lines 44-55).  `fromstring`
abstracts `xml.etree.ElementTree.fromstring`, returning `none` exactly
when the library would raise `ET.ParseError`, i.e. when the input is
not well-formed XML. -/
def MessageParser.parse (fromstring : String → Option XmlElem)
    (now : Nat) (parseStamp : String → Option Nat)
    (xml_text : String) : List Message × List Presence :=
  match fromstring xml_text with
  | none => ([], [])
  | some root =>
    (parseMessages now parseStamp root, parsePresence root)

/-! ### `UserList` (`userlist.py`)

`UserList.users` is a Python dict keyed by JID; it is modelled as an
association list in insertion order with unique keys (dict insertion
appends, updates mutate in place). -/

/-- `ChatUser` dataclass of `userlist.py`.  `login` is typed `str` in
the source annotation but receives `pres.login`, which may be `None`,
so it is an `Option String` here; `last_seen` is a `Nat` clock value
(`datetime.now()` is modelled by the explicit `now` argument of the
operations). -/
structure ChatUser where
  user_id : String
  login : Option String
  jid : String
  avatar : Option String := none
  background : Option String := none
  game_id : Option String := none
  affiliation : String := "none"
  role : String := "participant"
  status : String := "available"
  last_seen : Nat := 0
deriving Repr, DecidableEq

/-- The `self.users` dict of `UserList`. -/
abbrev UserList := List (String × ChatUser)

/-- `UserList.get` (`userlist.py` lines 94-96): `self.users.get(jid)`. -/
def UserList.get (ul : UserList) (jid : String) : Option ChatUser :=
  (List.find? (fun p => p.1 == jid) ul).map Prod.snd

/-- In-place mutation of the record stored under a key, as performed by
the update branch of `add_or_update` and by `remove`. -/
def UserList.setEntry (ul : UserList) (jid : String)
    (f : ChatUser → ChatUser) : UserList :=
  List.map (fun p => if p.1 == jid then (p.1, f p.2) else p) ul

/-- The user-id derivation at the top of `add_or_update`
(`userlist.py` lines 54-55): `jid.split('#')[0].split('/')[-1]`. -/
def deriveUserIdFromJid (jid : String) : String :=
  splitLast (splitHead jid '#') '/'

/-- `UserList.add_or_update` (`userlist.py` lines 48-85).  `now` models
`datetime.now()`. -/
def UserList.add_or_update (ul : UserList) (now : Nat) (jid : String)
    (login : Option String) (user_id : Option String := none)
    (avatar : Option String := none) (background : Option String := none)
    (game_id : Option String := none) (affiliation : String := "none")
    (role : String := "participant") : UserList :=
  let user_id : Option String :=
    if !(pyTruthy user_id) && pyContains jid '#' then
      some (deriveUserIdFromJid jid)
    else user_id
  if (UserList.get ul jid).isSome then
    UserList.setEntry ul jid (fun u =>
      { u with
        login := login,
        user_id := if pyTruthy user_id then user_id.getD u.user_id else u.user_id,
        avatar := if pyTruthy avatar then avatar else u.avatar,
        background := if pyTruthy background then background else u.background,
        game_id := game_id,
        affiliation := affiliation,
        role := role,
        status := "available",
        last_seen := now })
  else
    ul ++ [(jid, { user_id := pyOr user_id "", login := login, jid := jid,
                   avatar := avatar, background := background,
                   game_id := game_id, affiliation := affiliation,
                   role := role, status := "available", last_seen := now })]

/-- `UserList.remove` (`userlist.py` lines 87-92): mark the entry
`unavailable` when present, return whether it was present. -/
def UserList.remove (ul : UserList) (jid : String) : UserList × Bool :=
  if (UserList.get ul jid).isSome then
    (UserList.setEntry ul jid (fun u => { u with status := "unavailable" }), true)
  else (ul, false)

/-- `UserList.get_all` (`userlist.py` lines 98-100). -/
def UserList.get_all (ul : UserList) : List ChatUser :=
  List.map Prod.snd ul

/-- `UserList.get_online` (`userlist.py` lines 102-104). -/
def UserList.get_online (ul : UserList) : List ChatUser :=
  List.filter (fun u => u.status == "available") (UserList.get_all ul)

/-! ### `XMPPClient` (`xmpp.py`)

The client is modelled as an explicit state record plus one function
per method.  Requests on the wire are observed through the list of
request-ids (`rid` attribute) they carry — the claims under scrutiny
concern request counting and rid monotonicity, not payload bytes, so
the XML payload construction of `build_body` is not re-modelled.
Server responses and transport failures are supplied as parameters
(`Option` values, `none` modelling a missing field or a raised
exception).  Callback invocation is observed as the list of events
passed to the callback. -/

/-- The mutable attributes of `XMPPClient` the core methods touch
(`xmpp.py` `__init__`, lines 18-56): request id, session id, bound
JID, roster, the initial-roster flag, the `_joined_rooms` set (a list
in insertion order), and whether the two callbacks are set. -/
structure ClientState where
  rid : Nat
  sid : Option String
  jid : Option String
  user_list : UserList
  initial_roster_received : Bool
  joined_rooms : List String
  has_message_callback : Bool
  has_presence_callback : Bool
deriving Repr

/-- `XMPPClient.__init__` (`xmpp.py` lines 18-56): `rid` is seeded from
`int(random.random() * 1e10)` (the seed is a parameter here), `sid`
and `jid` start `None`, the roster is empty, callbacks are unset, and
`initial_roster_received` starts `False`.  `_joined_rooms` is created
lazily by `join_room` via `hasattr`; an absent attribute and an empty
set are indistinguishable to the methods, so it starts empty. -/
def initialClient (seed : Nat) : ClientState :=
  { rid := seed, sid := none, jid := none, user_list := [],
    initial_roster_received := false, joined_rooms := [],
    has_message_callback := false, has_presence_callback := false }

/-- `XMPPClient.set_message_callback` (`xmpp.py` lines 58-60). -/
def set_message_callback (st : ClientState) : ClientState :=
  { st with has_message_callback := true }

/-- `XMPPClient.set_presence_callback` (`xmpp.py` lines 62-64). -/
def set_presence_callback (st : ClientState) : ClientState :=
  { st with has_presence_callback := true }

/-- The message loop of `XMPPClient._process_response`
(`xmpp.py` lines 242-253): returns the messages handed to the message
callback, i.e. the decoded messages that survive the suppression
filter, when a callback is set.  `(msg.body or "").strip()` and
`'not anonymous' in body.lower()` are modelled by `pyStrip` /
`pyLower` / `pyIn`. -/
def processMessages (has_message_callback : Bool)
    (msgs : List Message) : List Message :=
  msgs.filter (fun msg =>
    let body := pyStrip msg.body
    !(msg.login == some "Клавобот" || pyIn "not anonymous" (pyLower body))
      && has_message_callback)

/-- The presence loop of `XMPPClient._process_response`
(`xmpp.py` lines 255-285): folds the decoded presences over the
roster, collecting the presences handed to the presence callback.
`irr` is the value of `self.initial_roster_received` while the loop
runs and `is_initial_roster` is the keyword argument. -/
def processPresences (ul : UserList) (now : Nat) (irr : Bool)
    (has_presence_callback : Bool) (is_initial_roster : Bool)
    (press : List Presence) : UserList × List Presence :=
  press.foldl (fun acc pres =>
    if pres.presence_type == "available" then
      (UserList.add_or_update acc.1 now pres.from_jid pres.login
         pres.user_id pres.avatar pres.background pres.game_id
         pres.affiliation pres.role,
       if !is_initial_roster && irr && has_presence_callback then
         acc.2 ++ [pres]
       else acc.2)
    else if pres.presence_type == "unavailable" then
      ((UserList.remove acc.1 pres.from_jid).1,
       if has_presence_callback then acc.2 ++ [pres] else acc.2)
    else acc) (ul, [])

/-- `XMPPClient._process_response` (`xmpp.py` lines 238-285) on an
already-decoded response: returns the new roster, the delivered
messages and the presence-callback invocations. -/
def process_response (st : ClientState) (now : Nat)
    (is_initial_roster : Bool) (msgs : List Message)
    (press : List Presence) : UserList × List Message × List Presence :=
  let delivered := processMessages st.has_message_callback msgs
  let (ul, pevents) := processPresences st.user_list now
    st.initial_roster_received st.has_presence_callback
    is_initial_roster press
  (ul, delivered, pevents)

/-- `XMPPClient.connect` (`xmpp.py` lines 100-172).  `account_ok`
models whether an account record was found; `sidResp` models the
value of `self.sid` after the init round trip (`none` for a missing
attribute or an unparseable response) and `jidResp` likewise models
the bound JID text after the bind round trip.  Returns the new state,
the request-ids of the requests sent, and the boolean result. -/
def connect (st : ClientState) (account_ok : Bool)
    (sidResp jidResp : Option String) :
    ClientState × List Nat × Bool :=
  if !account_ok then (st, [], false)
  else
    let r0 := st.rid
    let st1 := { st with sid := sidResp }
    if !(pyTruthy st1.sid) then (st1, [r0], false)
    else
      let st2 := { st1 with rid := r0 + 1 }
      let st3 := { st2 with rid := r0 + 2 }
      let st4 := { st3 with rid := r0 + 3, jid := jidResp }
      if !(pyTruthy st4.jid) then (st4, [r0, r0 + 1, r0 + 2, r0 + 3], false)
      else
        let st5 := { st4 with rid := r0 + 4 }
        (st5, [r0, r0 + 1, r0 + 2, r0 + 3, r0 + 4], true)

/-- `XMPPClient.join_room` (`xmpp.py` lines 174-207).  `nickname` is
the optional nickname argument (it only shapes the request payload);
`response` is `none` when the HTTP round trip raises, otherwise the
decoded join response.  Returns the new state, the request-ids sent,
the delivered messages and the presence-callback invocations. -/
def join_room (st : ClientState) (room_jid : String)
    (nickname : Option String)
    (response : Option (List Message × List Presence)) (now : Nat) :
    ClientState × List Nat × List Message × List Presence :=
  if st.joined_rooms.contains room_jid then (st, [], [], [])
  else
    let rid := st.rid + 1
    let st := { st with rid := rid }
    match response with
    | none => (st, [rid], [], [])
    | some (msgs, press) =>
      let st := { st with initial_roster_received := false }
      let (ul, delivered, pevents) :=
        process_response st now true msgs press
      ({ st with user_list := ul, initial_roster_received := true,
                 joined_rooms := st.joined_rooms ++ [room_jid] },
       [rid], delivered, pevents)

/-- `XMPPClient.send_message` (`xmpp.py` lines 209-236).
`auto_join_room` models the first configured room whose `auto_join`
flag is set; `send_ok` models whether the HTTP POST succeeds. -/
def send_message (st : ClientState) (room_jid : Option String)
    (auto_join_room : Option String) (send_ok : Bool) :
    ClientState × List Nat × Bool :=
  if !(pyTruthy st.sid) || !(pyTruthy st.jid) then (st, [], false)
  else
    let room := match room_jid with
      | none => auto_join_room
      | some r => some r
    if !(pyTruthy room) then (st, [], false)
    else
      let rid := st.rid + 1
      ({ st with rid := rid }, [rid], send_ok)

/-- Outcome of one poll round trip inside `XMPPClient.listen`. -/
inductive PollResult where
  | unparseable
  | terminate
  | stanzas (msgs : List Message) (press : List Presence)
deriving Repr

/-- One iteration of the loop of `XMPPClient.listen`
(`xmpp.py` lines 287-307): increment the request id, poll, and either
skip an unparseable frame, stop on a terminate frame, or process the
decoded stanzas with `is_initial_roster = False` (the call at line 302
passes no flag, so the keyword default applies).  The final `Bool` is
whether the loop continues. -/
def listen_step (st : ClientState) (now : Nat) (pr : PollResult) :
    ClientState × List Nat × List Message × List Presence × Bool :=
  let rid := st.rid + 1
  let st := { st with rid := rid }
  match pr with
  | .unparseable => (st, [rid], [], [], true)
  | .terminate => (st, [rid], [], [], false)
  | .stanzas msgs press =>
    let (ul, delivered, pevents) := process_response st now false msgs press
    ({ st with user_list := ul }, [rid], delivered, pevents, true)

/-- `XMPPClient.disconnect` (`xmpp.py` lines 309-319): when a session
id is present, increment the request id, best-effort send a terminate
request, and clear `sid` and `jid`; otherwise do nothing. -/
def disconnect (st : ClientState) : ClientState × List Nat :=
  if pyTruthy st.sid then
    let rid := st.rid + 1
    ({ st with rid := rid, sid := none, jid := none }, [rid])
  else (st, [])

/-! ### Association-list lemmas for the roster -/

/-- Lookup in the empty roster. -/
theorem UserList.get_nil (j : String) : UserList.get [] j = none := rfl

/-- Lookup steps over one binding. -/
theorem UserList.get_cons (k : String) (u : ChatUser) (rest : UserList)
    (j : String) :
    UserList.get ((k, u) :: rest) j =
      if k = j then some u else UserList.get rest j := by
  by_cases h : k = j <;> simp [UserList.get, List.find?_cons, h]

/-- `setEntry` steps over one binding. -/
theorem UserList.setEntry_cons (k : String) (u : ChatUser) (rest : UserList)
    (jid : String) (f : ChatUser → ChatUser) :
    UserList.setEntry ((k, u) :: rest) jid f =
      (if k = jid then (k, f u) else (k, u)) :: UserList.setEntry rest jid f := by
  by_cases h : k = jid <;> simp [UserList.setEntry, h]

/-- Looking up after an in-place entry mutation: the mutated key reads
back through `f`, every other key is untouched. -/
theorem UserList.get_setEntry (ul : UserList) (jid : String)
    (f : ChatUser → ChatUser) (j : String) :
    UserList.get (UserList.setEntry ul jid f) j =
      if j = jid then (UserList.get ul j).map f else UserList.get ul j := by
  induction ul with
  | nil =>
    simp only [UserList.setEntry, List.map_nil, UserList.get_nil]
    split <;> rfl
  | cons p rest ih =>
    obtain ⟨k, u⟩ := p
    rw [UserList.setEntry_cons]
    by_cases hkj : k = jid
    · subst hkj
      by_cases hk : k = j
      · subst hk
        simp [UserList.get_cons]
      · simp [UserList.get_cons, hk, ih, fun h : j = k => hk h.symm]
    · by_cases hk : k = j
      · subst hk
        simp [UserList.get_cons, fun h : k = jid => hkj h, ih,
          fun h : k = jid => hkj h]
      · simp [UserList.get_cons, hkj, hk, ih]

/-- Looking up after appending a fresh binding. -/
theorem UserList.get_append_single (ul : UserList) (k : String)
    (u : ChatUser) (j : String) :
    UserList.get (ul ++ [(k, u)]) j =
      match UserList.get ul j with
      | some v => some v
      | none => if j = k then some u else none := by
  induction ul with
  | nil =>
    by_cases h : j = k
    · subst h
      simp [UserList.get_nil, UserList.get_cons]
    · simp [UserList.get_nil, UserList.get_cons, h, Ne.symm h]
  | cons p rest ih =>
    obtain ⟨k', u'⟩ := p
    by_cases hk : k' = j
    · subst hk
      simp [UserList.get_cons, List.cons_append]
    · rw [List.cons_append, UserList.get_cons, UserList.get_cons, if_neg hk,
        if_neg hk, ih]

/-- `add_or_update` always leaves a binding under the given key. -/
theorem UserList.get_add_or_update_isSome (ul : UserList) (now : Nat)
    (jid : String) (login user_id avatar background game_id : Option String)
    (affiliation role : String) :
    (UserList.get (UserList.add_or_update ul now jid login user_id avatar
        background game_id affiliation role) jid).isSome = true := by
  unfold UserList.add_or_update
  cases h : UserList.get ul jid with
  | some u => simp [h, UserList.get_setEntry]
  | none => simp [h, UserList.get_append_single]

/-- C3: applying an `unavailable` presence (i.e. `UserList.remove`, the
operation `_process_response` performs for it) never deletes and never
creates a roster entry: every key keeps its present/absent status; a
known sender address has only its status field set to `unavailable`
(all other metadata of the record preserved); an unknown address
leaves the roster unchanged; and after an `available` event
(`add_or_update`) immediately followed by an `unavailable` event for
the same address, the entry still exists with status `unavailable`. -/
theorem c3_unavailable_marks_not_deletes (ul : UserList) (jid : String)
    (u : ChatUser) (now : Nat)
    (login user_id avatar background game_id : Option String)
    (affiliation role : String) :
    (∀ j, (UserList.get (UserList.remove ul jid).1 j).isSome
            = (UserList.get ul j).isSome)
    ∧ (UserList.get ul jid = some u →
        UserList.get (UserList.remove ul jid).1 jid
          = some { u with status := "unavailable" })
    ∧ (UserList.get ul jid = none → UserList.remove ul jid = (ul, false))
    ∧ ((UserList.get (UserList.remove (UserList.add_or_update ul now jid
          login user_id avatar background game_id affiliation role)
          jid).1 jid).map ChatUser.status = some "unavailable") := by
  refine ⟨?_, ?_, ?_, ?_⟩
  · intro j
    unfold UserList.remove
    by_cases h : (UserList.get ul jid).isSome
    · simp only [h, if_true, UserList.get_setEntry]
      by_cases hj : j = jid
      · simp [hj]
      · simp [hj]
    · simp [h]
  · intro h
    simp [UserList.remove, h, UserList.get_setEntry]
  · intro h
    simp [UserList.remove, h]
  · have hs := UserList.get_add_or_update_isSome ul now jid login user_id
      avatar background game_id affiliation role
    rw [Option.isSome_iff_exists] at hs
    obtain ⟨v, hv⟩ := hs
    simp [UserList.remove, hv, UserList.get_setEntry]

/-- Witness for C3 at a concrete roster: the single entry survives an
`unavailable` event with only its status changed, and an unknown
address is a no-op. -/
theorem c3_witness :
    UserList.get
        (UserList.remove
          [("r@c/1#b", { user_id := "1", login := some "b",
                         jid := "r@c/1#b" : ChatUser })] "r@c/1#b").1 "r@c/1#b"
      = some { user_id := "1", login := some "b", jid := "r@c/1#b",
               status := "unavailable" : ChatUser }
    ∧ UserList.remove
        [("r@c/1#b", { user_id := "1", login := some "b",
                       jid := "r@c/1#b" : ChatUser })] "stranger"
      = ([("r@c/1#b", { user_id := "1", login := some "b",
                        jid := "r@c/1#b" : ChatUser })], false) := by
  refine ⟨?_, ?_⟩
  · exact ((c3_unavailable_marks_not_deletes
      [("r@c/1#b", { user_id := "1", login := some "b",
                     jid := "r@c/1#b" : ChatUser })] "r@c/1#b"
      { user_id := "1", login := some "b", jid := "r@c/1#b" : ChatUser }
      0 none none none none none "none" "participant").2.1
        (by decide)).trans (by decide)
  · exact (c3_unavailable_marks_not_deletes
      [("r@c/1#b", { user_id := "1", login := some "b",
                     jid := "r@c/1#b" : ChatUser })] "stranger"
      { user_id := "1", login := some "b", jid := "r@c/1#b" : ChatUser }
      0 none none none none none "none" "participant").2.2.1 (by decide)

/-- C6 counterexample: the claim "numeric id is overwritten only when
the incoming value is non-empty (otherwise the old value is kept)"
fails.  Concrete input: roster entry under jid `a#b` with stored
numeric id `999`; an available presence for the same jid with an empty
(`None`) incoming numeric id.  `add_or_update` re-derives the id from
the jid (`jid.split('#')[0].split('/')[-1] = "a"`) and overwrites, so
the old value `999` is not kept. -/
theorem c6_counterexample :
    UserList.get [("a#b", { user_id := "999", login := some "b",
                            jid := "a#b" : ChatUser })] "a#b"
      = some { user_id := "999", login := some "b", jid := "a#b" : ChatUser }
    ∧ pyTruthy none = false
    ∧ (UserList.get (UserList.add_or_update
          [("a#b", { user_id := "999", login := some "b",
                     jid := "a#b" : ChatUser })]
          1 "a#b" (some "b") none none none none "none" "participant")
          "a#b").map ChatUser.user_id = some "a" := by
  exact ⟨by decide, rfl, by decide⟩

/-- C6 as amended: for every `available` presence applied to an
existing roster entry, login is always overwritten; avatar and
background are overwritten only when the incoming value is non-empty;
the numeric id is overwritten when the incoming value is non-empty,
and also when the incoming value is empty but the jid contains `#` and
re-deriving the id from the jid (`jid.split('#')[0].split('/')[-1]`)
yields a non-empty value — only otherwise is the old value kept; the
game-session reference, affiliation and role are always overwritten
(including game id to nil); status is forced to `available`; and the
last-update timestamp is refreshed to now. -/
theorem c6_amended_update_rule (ul : UserList) (now : Nat) (jid : String)
    (login user_id avatar background game_id : Option String)
    (affiliation role : String) (u : ChatUser)
    (h : UserList.get ul jid = some u) :
    UserList.get (UserList.add_or_update ul now jid login user_id avatar
        background game_id affiliation role) jid =
      some { u with
        login := login,
        user_id :=
          if pyTruthy user_id = true then user_id.getD u.user_id
          else if pyContains jid '#' = true ∧ deriveUserIdFromJid jid ≠ ""
            then deriveUserIdFromJid jid
            else u.user_id,
        avatar := if pyTruthy avatar = true then avatar else u.avatar,
        background :=
          if pyTruthy background = true then background else u.background,
        game_id := game_id,
        affiliation := affiliation,
        role := role,
        status := "available",
        last_seen := now } := by
  unfold UserList.add_or_update
  rw [if_pos (by simp [h]), UserList.get_setEntry, if_pos rfl, h,
    Option.map_some']
  congr 1
  cases user_id with
  | none =>
    by_cases h2 : pyContains jid '#'
    · by_cases h3 : deriveUserIdFromJid jid = ""
      · simp [h2, h3, pyTruthy]
      · simp [h2, h3, pyTruthy]
    · rw [Bool.not_eq_true] at h2
      simp [h2, pyTruthy]
  | some s =>
    by_cases h1 : s = ""
    · subst h1
      by_cases h2 : pyContains jid '#'
      · by_cases h3 : deriveUserIdFromJid jid = ""
        · simp [h2, h3, pyTruthy]
        · simp [h2, h3, pyTruthy]
      · rw [Bool.not_eq_true] at h2
        simp [h2, pyTruthy]
    · simp [h1, pyTruthy]

/-- Witness for the amended C6 at a concrete roster entry: empty
incoming avatar keeps the old one, non-empty incoming game id and an
incoming numeric id overwrite, status and timestamp refreshed. -/
theorem c6_witness :
    UserList.get (UserList.add_or_update
        [("r@c/1#b", { user_id := "1", login := some "b", jid := "r@c/1#b",
                       avatar := some "old.png", game_id := some "g7",
                       last_seen := 3 : ChatUser })]
        9 "r@c/1#b" (some "b") (some "2") none none none "member" "moderator")
        "r@c/1#b"
      = some { user_id := "2", login := some "b", jid := "r@c/1#b",
               avatar := some "old.png", game_id := none,
               affiliation := "member", role := "moderator",
               status := "available", last_seen := 9 : ChatUser } := by
  exact (c6_amended_update_rule
    [("r@c/1#b", { user_id := "1", login := some "b", jid := "r@c/1#b",
                   avatar := some "old.png", game_id := some "g7",
                   last_seen := 3 : ChatUser })]
    9 "r@c/1#b" (some "b") (some "2") none none none "member" "moderator"
    { user_id := "1", login := some "b", jid := "r@c/1#b",
      avatar := some "old.png", game_id := some "g7",
      last_seen := 3 : ChatUser } (by decide)).trans (by decide)

/-- C2: a presence processed as part of a join's direct response
(`is_initial_roster = true`) updates the roster but is not handed to
the presence callback when it is `available`; once the join response
has been fully processed (`initial_roster_received = true`, and the
long-poll loop passes `is_initial_roster = false`), an `available`
presence is handed to the callback; and an `unavailable` presence is
handed to the callback for every combination of the two flags. -/
theorem c2_initial_roster_callback_policy (st : ClientState)
    (room : String) (nick : Option String) (ul : UserList) (now : Nat)
    (irr : Bool) (p : Presence)
    (hcb : st.has_presence_callback = true)
    (hjoin : st.joined_rooms.contains room = false) :
    (p.presence_type = "available" →
      (join_room st room nick (some ([], [p])) now).2.2.2 = []
      ∧ (join_room st room nick (some ([], [p])) now).1.user_list
          = UserList.add_or_update st.user_list now p.from_jid p.login
              p.user_id p.avatar p.background p.game_id p.affiliation
              p.role)
    ∧ (p.presence_type = "available" →
      processPresences ul now true true false [p]
        = (UserList.add_or_update ul now p.from_jid p.login p.user_id
            p.avatar p.background p.game_id p.affiliation p.role, [p]))
    ∧ (p.presence_type = "unavailable" →
      (join_room st room nick (some ([], [p])) now).2.2.2 = [p]
      ∧ ∀ is_initial_roster : Bool,
        processPresences ul now irr true is_initial_roster [p]
          = ((UserList.remove ul p.from_jid).1, [p])) := by
  have hmem : room ∉ st.joined_rooms := by simpa using hjoin
  refine ⟨fun h => ⟨?_, ?_⟩, fun h => ?_, fun h => ⟨?_, fun is_init => ?_⟩⟩ <;>
    simp [join_room, process_response, processMessages, processPresences,
      hmem, hcb, h]

/-- Witness for C2: a concrete join response with one available
presence produces no callback event while updating the roster, and an
unavailable presence afterwards is reported. -/
theorem c2_witness :
    (join_room (set_presence_callback (initialClient 3)) "room@c" none
        (some ([], [{ from_jid := "r@c/1#b",
                      presence_type := "available", login := some "b",
                      user_id := some "1" }])) 0).2.2.2 = []
    ∧ processPresences [] 0 false true false
        [{ from_jid := "r@c/1#b", presence_type := "unavailable" }]
      = (([] : UserList),
         [{ from_jid := "r@c/1#b", presence_type := "unavailable" }]) := by
  refine ⟨((c2_initial_roster_callback_policy
    (set_presence_callback (initialClient 3)) "room@c" none [] 0 false
    { from_jid := "r@c/1#b", presence_type := "available",
      login := some "b", user_id := some "1" } rfl rfl).1 rfl).1, ?_⟩
  exact (((c2_initial_roster_callback_policy
    (set_presence_callback (initialClient 3)) "room@c" none [] 0 false
    { from_jid := "r@c/1#b", presence_type := "unavailable" } rfl
    rfl).2.2 rfl).2 false).trans (by decide)

/-- C9 (implicit): the initial-roster flag is initialised to `false` at
construction, and while it is still `false` an `available` presence
processed by the long-poll loop (which passes
`is_initial_roster = false`) updates the roster but produces no
presence-callback invocation. -/
theorem c9_preflag_poll_suppression (seed now : Nat) (st : ClientState)
    (p : Presence) (hflag : st.initial_roster_received = false)
    (havail : p.presence_type = "available") :
    (initialClient seed).initial_roster_received = false
    ∧ (listen_step st now (.stanzas [] [p])).1.user_list
        = UserList.add_or_update st.user_list now p.from_jid p.login
            p.user_id p.avatar p.background p.game_id p.affiliation p.role
    ∧ (listen_step st now (.stanzas [] [p])).2.2.2.1 = [] := by
  refine ⟨rfl, ?_, ?_⟩ <;>
    simp [listen_step, process_response, processPresences,
      processMessages, hflag, havail]

/-- Witness for C9: fresh client, callback set, one available presence
through one poll iteration — roster gains the entry, callback list is
empty. -/
theorem c9_witness :
    (initialClient 3).initial_roster_received = false
    ∧ (listen_step (set_presence_callback (initialClient 3)) 0
        (.stanzas [] [{ from_jid := "r@c/1#b",
                        presence_type := "available",
                        login := some "b", user_id := some "1" }])).1.user_list
        = UserList.add_or_update [] 0 "r@c/1#b" (some "b") (some "1")
            none none none "none" "participant"
    ∧ (listen_step (set_presence_callback (initialClient 3)) 0
        (.stanzas [] [{ from_jid := "r@c/1#b",
                        presence_type := "available",
                        login := some "b", user_id := some "1" }])).2.2.2.1
        = [] := by
  have h := c9_preflag_poll_suppression 3 0
    (set_presence_callback (initialClient 3))
    { from_jid := "r@c/1#b", presence_type := "available",
      login := some "b", user_id := some "1" } rfl rfl
  exact ⟨h.1, h.2.1, h.2.2⟩

/-- C10 (implicit): a decoded presence element with no `type`
attribute is assigned presence subtype `available`
(`pres.get('type', 'available')`). -/
theorem c10_untyped_presence_available (e : XmlElem)
    (h : e.attrs.find? (fun p => p.1 == "type") = none) :
    (parsePresenceElem e).presence_type = "available" := by
  simp [parsePresenceElem, XmlElem.getAttr, h]

/-- Witness for C10 at a concrete untyped presence element. -/
theorem c10_witness :
    (parsePresenceElem ⟨nsClient ++ "presence", [("from", "r@c/1#b")],
        none, []⟩).presence_type = "available" :=
  c10_untyped_presence_available _ (by decide)

/-- C7: when the input is not well-formed XML (the XML library's
parse, abstracted as `fromstring`, reports failure), `parse` returns
two empty lists instead of propagating the error. -/
theorem c7_malformed_xml_two_empty_lists
    (fromstring : String → Option XmlElem) (now : Nat)
    (parseStamp : String → Option Nat) (xml_text : String)
    (h : fromstring xml_text = none) :
    MessageParser.parse fromstring now parseStamp xml_text = ([], []) := by
  simp [MessageParser.parse, h]

/-- Witness for C7 on a concrete rejected input. -/
theorem c7_witness :
    MessageParser.parse (fun _ => none) 0 (fun _ => none)
      "this is not XML <" = ([], []) :=
  c7_malformed_xml_two_empty_lists (fun _ => none) 0 (fun _ => none)
    "this is not XML <" rfl

/-- C4: across init, auth, stream-restart, bind, session-establish and
one poll, a client seeded with request-id `r` sends six requests whose
ids are exactly `r, r+1, r+2, r+3, r+4, r+5` — strictly increasing,
the first one the seed unchanged, each later one incremented by one
before sending; and no modelled operation ever decreases the
request-id counter. -/
theorem c4_request_id_strictly_increasing (r : Nat) (sid jid : String)
    (hsid : sid ≠ "") (hjid : jid ≠ "") :
    (∀ now pr,
      (connect (initialClient r) true (some sid) (some jid)).2.1
          ++ (listen_step (connect (initialClient r) true (some sid)
                (some jid)).1 now pr).2.1
        = [r, r + 1, r + 2, r + 3, r + 4, r + 5])
    ∧ List.Chain' (· < ·) [r, r + 1, r + 2, r + 3, r + 4, r + 5]
    ∧ (∀ st ok s j, st.rid ≤ (connect st ok s j).1.rid)
    ∧ (∀ st room nick resp now,
        st.rid ≤ (join_room st room nick resp now).1.rid)
    ∧ (∀ st roomo auto ok, st.rid ≤ (send_message st roomo auto ok).1.rid)
    ∧ (∀ st now pr, st.rid ≤ (listen_step st now pr).1.rid)
    ∧ (∀ st, st.rid ≤ (disconnect st).1.rid) := by
  refine ⟨?_, ?_, ?_, ?_, ?_, ?_, ?_⟩
  · intro now pr
    cases pr <;>
      simp [connect, initialClient, listen_step, pyTruthy, hsid, hjid,
        process_response]
  · simp [List.chain'_cons]
  · intro st ok s j
    simp only [connect]
    split_ifs <;> simp
  · intro st room nick resp now
    cases resp <;> simp only [join_room] <;> split_ifs <;> simp
  · intro st roomo auto ok
    simp only [send_message]
    split_ifs <;> simp
  · intro st now pr
    cases pr <;> simp [listen_step]
  · intro st
    simp only [disconnect]
    split_ifs <;> simp

/-- Witness for C4: the six-request sequence at seed 10. -/
theorem c4_witness :
    (connect (initialClient 10) true (some "s") (some "u@d/kg")).2.1
        ++ (listen_step (connect (initialClient 10) true (some "s")
              (some "u@d/kg")).1 0 .unparseable).2.1
      = [10, 11, 12, 13, 14, 15] :=
  (c4_request_id_strictly_increasing 10 "s" "u@d/kg" (by decide)
    (by decide)).1 0 .unparseable

/-- C5: joining is idempotent — a join for an address already in
`_joined_rooms` is a complete no-op issuing no request, so two joins
of the same address issue exactly one request; the address is recorded
only after the join round-trip completes (a failed round trip records
nothing); and no modelled operation ever removes an address from
`_joined_rooms`. -/
theorem c5_join_idempotent (st : ClientState) (room : String)
    (nick nick2 : Option String) (resp : List Message × List Presence)
    (resp2 respAny : Option (List Message × List Presence))
    (now now2 : Nat) :
    (room ∈ st.joined_rooms →
      join_room st room nick respAny now = (st, [], [], []))
    ∧ (room ∉ st.joined_rooms →
        (join_room st room nick (some resp) now).2.1.length = 1
        ∧ room ∈ (join_room st room nick (some resp) now).1.joined_rooms
        ∧ join_room (join_room st room nick (some resp) now).1 room
            nick2 resp2 now2
            = ((join_room st room nick (some resp) now).1, [], [], []))
    ∧ (room ∉ st.joined_rooms →
        (join_room st room nick none now).1.joined_rooms
          = st.joined_rooms)
    ∧ (∀ a, a ∈ st.joined_rooms →
        a ∈ (join_room st room nick respAny now).1.joined_rooms)
    ∧ (∀ ok s j, (connect st ok s j).1.joined_rooms = st.joined_rooms)
    ∧ (∀ roomo auto ok,
        (send_message st roomo auto ok).1.joined_rooms = st.joined_rooms)
    ∧ (∀ pr, (listen_step st now pr).1.joined_rooms = st.joined_rooms)
    ∧ (disconnect st).1.joined_rooms = st.joined_rooms := by
  refine ⟨?_, ?_, ?_, ?_, ?_, ?_, ?_, ?_⟩
  · intro h
    simp [join_room]
    intro h'
    exact absurd h h'
  · intro h
    refine ⟨?_, ?_, ?_⟩
    · simp [join_room, h]
    · simp [join_room, h]
    · simp [join_room, h]
  · intro h
    simp [join_room, h]
  · intro a ha
    cases respAny <;> simp only [join_room] <;> split_ifs <;>
      simp [ha, process_response]
  · intro ok s j
    simp only [connect]
    split_ifs <;> simp
  · intro roomo auto ok
    simp only [send_message]
    split_ifs <;> simp
  · intro pr
    cases pr <;> simp [listen_step]
  · simp only [disconnect]
    split_ifs <;> simp

/-- Witness for C5: a fresh client joining the same room twice issues
one request on the first call and none on the second. -/
theorem c5_witness :
    (join_room (initialClient 3) "room@c" none (some ([], [])) 0).2.1.length
      = 1
    ∧ join_room (join_room (initialClient 3) "room@c" none
          (some ([], [])) 0).1 "room@c" none none 1
        = ((join_room (initialClient 3) "room@c" none
             (some ([], [])) 0).1, [], [], []) := by
  have h := (c5_join_idempotent (initialClient 3) "room@c" none none
    ([], []) none none 0 1).2.1 (by simp [initialClient])
  exact ⟨h.1, h.2.2⟩

/-- C1 counterexample: for a presence whose vendor extension carries
no login and no numeric id and whose sender address is
`12345#alice/game7`, the decoder derives login `alice` but numeric
participant id `game7` — not `12345` as the claim states.  The code
takes `from_jid.split('/')[-1].split('#')[0]` (last `/`-segment, then
the part before `#`), which only yields the numeric id for addresses
shaped `node/numericId#login`. -/
theorem c1_counterexample :
    (parsePresence ⟨"body", [], none,
        [⟨nsClient ++ "presence", [("from", "12345#alice/game7")],
          none, []⟩]⟩).map Presence.user_id = [some "game7"]
    ∧ (parsePresence ⟨"body", [], none,
        [⟨nsClient ++ "presence", [("from", "12345#alice/game7")],
          none, []⟩]⟩).map Presence.login = [some "alice"]
    ∧ ("game7" : String) ≠ "12345" := by
  refine ⟨?_, ?_, by decide⟩ <;>
    simp [parsePresence, findallDesc, descendantsAll, parsePresenceElem,
      findDesc, findChild, XmlElem.getAttr, pyTruthy] <;>
    decide

/-- C1 as amended: for every presence element carrying only a `from`
address that contains `#` (no vendor extension data), the decoder
derives the login by taking the piece after the first `#` and cutting
it at the first `/` (so `12345#alice/game7` gives `alice`), and
derives the numeric participant id as the part of the last
`/`-segment before the first `#` (so `12345#alice/game7` gives
`game7`, while `node/12345#alice` gives `12345`). -/
theorem c1_amended_address_derivation (jid : String)
    (h : pyContains jid '#' = true) :
    parsePresence ⟨"body", [], none,
        [⟨nsClient ++ "presence", [("from", jid)], none, []⟩]⟩
      = [{ from_jid := jid, presence_type := "available",
           login := some (if pyContains (splitSecond jid '#') '/'
             then splitHead (splitSecond jid '#') '/'
             else splitSecond jid '#'),
           user_id := some (splitHead (splitLast jid '/') '#') }] := by
  simp [parsePresence, findallDesc, descendantsAll, parsePresenceElem,
    findDesc, findChild, XmlElem.getAttr, h, pyTruthy]

/-- Witness for the amended C1 at the two address shapes. -/
theorem c1_witness :
    parsePresence ⟨"body", [], none,
        [⟨nsClient ++ "presence", [("from", "room@c/12345#alice")],
          none, []⟩]⟩
      = [{ from_jid := "room@c/12345#alice",
           presence_type := "available", login := some "alice",
           user_id := some "12345" }] :=
  (c1_amended_address_derivation "room@c/12345#alice"
    (by decide)).trans (by decide)

/-! ### Substring lemmas for the message-suppression filter

The source checks `'not anonymous' in (msg.body or "").strip().lower()`.
The claim speaks of the phrase being contained in the body
case-insensitively, so these lemmas show the strip is irrelevant: the
phrase starts and ends with non-whitespace characters, hence occurs in
the stripped lowered body iff it occurs in the lowered body. -/

/-- `List.isPrefixOf` agrees with the prefix relation. -/
theorem isPrefixOfB_iff (n l : List Char) : n.isPrefixOf l = true ↔ n <+: l :=
  List.isPrefixOf_iff_prefix

/-- `infixOfB` agrees with the infix relation. -/
theorem infixOfB_iff (n l : List Char) : infixOfB n l = true ↔ n <:+: l := by
  induction l with
  | nil => simp [infixOfB, List.isEmpty_iff, List.infix_nil]
  | cons c t ih =>
    simp [infixOfB, Bool.or_eq_true, ih, isPrefixOfB_iff, List.infix_cons_iff]

/-- Infixes of a reversed list are reversed infixes. -/
theorem infix_rev (n w : List Char) : n <:+: w.reverse ↔ n.reverse <:+: w := by
  constructor
  · rintro ⟨s, t, h⟩
    refine ⟨t.reverse, s.reverse, ?_⟩
    have h2 := congrArg List.reverse h
    simpa using h2
  · rintro ⟨s, t, h⟩
    refine ⟨t.reverse, s.reverse, ?_⟩
    have h2 := congrArg List.reverse h
    simpa using h2

/-- Whitespace characters are unchanged by ASCII lowering. -/
theorem pyToLower_space (c : Char) (h : pyIsSpace c = true) :
    pyToLower c = c := by
  simp only [pyIsSpace, Bool.or_eq_true, beq_iff_eq] at h
  rcases h with ((((h | h) | h) | h) | h) | h <;> subst h <;> decide

/-- Dropping leading whitespace does not affect containment of a
needle whose first character is not whitespace (after lowering). -/
theorem isInfix_lower_dropWhile (c : Char) (cs l : List Char)
    (hc : pyIsSpace c = false) :
    (c :: cs) <:+: (l.dropWhile pyIsSpace).map pyToLower
      ↔ (c :: cs) <:+: l.map pyToLower := by
  induction l with
  | nil => simp
  | cons x t ih =>
    rw [List.dropWhile_cons]
    by_cases hx : pyIsSpace x
    · rw [if_pos hx, ih]
      constructor
      · intro hh
        exact hh.trans
          (List.suffix_cons (pyToLower x) (t.map pyToLower)).isInfix
      · intro hh
        rcases List.infix_cons_iff.mp (by simpa using hh) with hpre | htail
        · rcases List.cons_prefix_cons.mp hpre with ⟨hcx, _⟩
          rw [pyToLower_space x hx] at hcx
          rw [hcx] at hc
          rw [hx] at hc
          cases hc
        · exact htail
    · rw [if_neg hx]

/-- The moderation phrase occurs in the stripped lowered body iff it
occurs in the lowered body: its first character `n` and last character
`s` are not whitespace, so no occurrence can reach into the stripped
margins. -/
theorem notAnon_infix_strip (l : List Char) :
    ("not anonymous".data <:+: (pyStripL l).map pyToLower)
      ↔ "not anonymous".data <:+: l.map pyToLower := by
  have hn : "not anonymous".data = 'n' :: "ot anonymous".data := rfl
  have hr : ("not anonymous".data).reverse = 's' :: "uomynona ton".data := by
    decide
  unfold pyStripL
  rw [List.map_reverse, infix_rev, hr,
    isInfix_lower_dropWhile 's' ("uomynona ton".data) _ (by decide),
    ← hr, List.map_reverse, infix_rev, List.reverse_reverse, hn,
    isInfix_lower_dropWhile 'n' ("ot anonymous".data) l (by decide)]

/-- C8: with the message callback set, a decoded message whose login
is the bot identity `Клавобот`, or whose body contains the moderation
phrase `not anonymous` case-insensitively, is never handed to the
message callback; every other decoded message is handed to it. -/
theorem c8_message_suppression (msgs : List Message) (m : Message) :
    ((m.login = some "Клавобот"
        ∨ "not anonymous".data <:+: (pyLower m.body).data) →
      m ∉ processMessages true msgs)
    ∧ (m ∈ msgs →
      ¬(m.login = some "Клавобот"
          ∨ "not anonymous".data <:+: (pyLower m.body).data) →
      m ∈ processMessages true msgs) := by
  have key : ∀ mm : Message,
      (pyIn "not anonymous" (pyLower (pyStrip mm.body)) = true)
        ↔ "not anonymous".data <:+: (pyLower mm.body).data := by
    intro mm
    rw [pyIn, infixOfB_iff]
    exact notAnon_infix_strip mm.body.data
  constructor
  · intro hsup hmem
    simp only [processMessages, List.mem_filter] at hmem
    have h2 := hmem.2
    simp only [Bool.and_true, Bool.not_eq_true', Bool.or_eq_false_iff,
      beq_eq_false_iff_ne] at h2
    rcases hsup with hb | hi
    · exact h2.1 hb
    · rw [← key m, h2.2] at hi
      cases hi
  · intro hmem hnot
    simp only [processMessages, List.mem_filter]
    refine ⟨hmem, ?_⟩
    simp only [Bool.and_true, Bool.not_eq_true', Bool.or_eq_false_iff,
      beq_eq_false_iff_ne]
    push_neg at hnot
    refine ⟨hnot.1, ?_⟩
    rw [← Bool.not_eq_true, key m]
    exact hnot.2

/-- Witness for C8 on a concrete batch: the bot message and the
mixed-case moderation-phrase message are suppressed, the ordinary
message is delivered. -/
theorem c8_witness :
    ({ from_jid := "r@c/1#b", body := "hello", msg_type := "groupchat",
       login := some "Клавобот" : Message }
      ∉ processMessages true
        [{ from_jid := "r@c/1#b", body := "hello",
           msg_type := "groupchat", login := some "Клавобот" : Message },
         { from_jid := "r@c/2#x", body := "  This chat is NOT Anonymous ",
           msg_type := "groupchat", login := some "x" : Message },
         { from_jid := "r@c/2#x", body := "hello all",
           msg_type := "groupchat", login := some "x" : Message }])
    ∧ ({ from_jid := "r@c/2#x", body := "  This chat is NOT Anonymous ",
         msg_type := "groupchat", login := some "x" : Message }
      ∉ processMessages true
        [{ from_jid := "r@c/1#b", body := "hello",
           msg_type := "groupchat", login := some "Клавобот" : Message },
         { from_jid := "r@c/2#x", body := "  This chat is NOT Anonymous ",
           msg_type := "groupchat", login := some "x" : Message },
         { from_jid := "r@c/2#x", body := "hello all",
           msg_type := "groupchat", login := some "x" : Message }])
    ∧ ({ from_jid := "r@c/2#x", body := "hello all",
         msg_type := "groupchat", login := some "x" : Message }
      ∈ processMessages true
        [{ from_jid := "r@c/1#b", body := "hello",
           msg_type := "groupchat", login := some "Клавобот" : Message },
         { from_jid := "r@c/2#x", body := "  This chat is NOT Anonymous ",
           msg_type := "groupchat", login := some "x" : Message },
         { from_jid := "r@c/2#x", body := "hello all",
           msg_type := "groupchat", login := some "x" : Message }]) := by
  refine ⟨?_, ?_, ?_⟩
  · exact (c8_message_suppression _ _).1 (Or.inl rfl)
  · exact (c8_message_suppression _ _).1
      (Or.inr ((infixOfB_iff _ _).mp (by decide)))
  · refine (c8_message_suppression _ _).2 (by simp) ?_
    rintro (h | h)
    · exact absurd h (by decide)
    · rw [← infixOfB_iff] at h
      exact absurd h (by decide)

end KgChat
